import Mathlib

/-!
Verification of the EGL backend of this repository (src/glutin/src/api/egl.rs):
configuration selection (`Config::new`), context creation (`Context::new`),
API binding (`Display::bind_api`), currency transitions (`make_current`,
`make_not_current`) and buffer presentation (`swap_buffers`), shallowly
embedded as executable Lean functions.  Native EGL calls are modelled by
explicit oracle parameters holding the values the driver would return, and
the native calls a function issues are returned as an explicit trace.
-/

namespace Egl

/-- Modelled from the spec: numeric EGL attribute keys and values from the
generated `ffi::egl` bindings (not under src/); the values are the standard
EGL constants.  The claims depend only on these being fixed named numbers. -/
def egl_NONE : Int := 0x3038

def egl_COLOR_BUFFER_TYPE : Int := 0x303F

def egl_RGB_BUFFER : Int := 0x308E

def egl_SURFACE_TYPE : Int := 0x3033

def egl_WINDOW_BIT : Nat := 0x0004

def egl_PBUFFER_BIT : Nat := 0x0001

def egl_PIXMAP_BIT : Nat := 0x0002

def egl_RENDERABLE_TYPE : Int := 0x3040

def egl_CONFORMANT : Int := 0x3042

def egl_OPENGL_ES_BIT : Int := 0x0001

def egl_OPENGL_ES2_BIT : Int := 0x0004

def egl_OPENGL_ES3_BIT : Int := 0x0040

def egl_OPENGL_BIT : Int := 0x0008

def egl_CONFIG_CAVEAT : Int := 0x3027

def egl_SLOW_CONFIG : Int := 0x3050

def egl_RED_SIZE : Int := 0x3024

def egl_GREEN_SIZE : Int := 0x3023

def egl_BLUE_SIZE : Int := 0x3022

def egl_ALPHA_SIZE : Int := 0x3021

def egl_DEPTH_SIZE : Int := 0x3025

def egl_STENCIL_SIZE : Int := 0x3026

def egl_SAMPLES : Int := 0x3031

def egl_NATIVE_VISUAL_ID : Int := 0x302E

def egl_MIN_SWAP_INTERVAL : Int := 0x303B

def egl_MAX_SWAP_INTERVAL : Int := 0x303C

def egl_CONTEXT_MAJOR_VERSION : Int := 0x3098

def egl_CONTEXT_MINOR_VERSION : Int := 0x30FB

def egl_CONTEXT_OPENGL_NO_ERROR_KHR : Int := 0x31B3

def egl_CONTEXT_OPENGL_RESET_NOTIFICATION_STRATEGY : Int := 0x31BD

def egl_NO_RESET_NOTIFICATION : Int := 0x31BE

def egl_LOSE_CONTEXT_ON_RESET : Int := 0x31BF

def egl_CONTEXT_OPENGL_ROBUST_ACCESS : Nat := 0x31B2

def egl_CONTEXT_OPENGL_DEBUG : Int := 0x31B0

def egl_CONTEXT_FLAGS_KHR : Int := 0x30FC

def egl_CONTEXT_CLIENT_VERSION : Int := 0x3098

def egl_CONTEXT_RELEASE_BEHAVIOR_KHR : Int := 0x2097

def egl_CONTEXT_RELEASE_BEHAVIOR_FLUSH_KHR : Int := 0x2098

def egl_CONTEXT_RELEASE_BEHAVIOR_NONE_KHR : Int := 0

def egl_TRUE : Nat := 1

def egl_FALSE : Nat := 0

def egl_CONTEXT_LOST : Nat := 0x300E

def egl_BAD_MATCH : Nat := 0x3009

def egl_BAD_ATTRIBUTE : Nat := 0x3004

def egl_OPENGL_API : Int := 0x30A2

def egl_OPENGL_ES_API : Int := 0x30A0

/-- Modelled from the spec: `crate::config::Api` (declaration not under
src/).  The EGL code matches on `OpenGl` and `OpenGlEs` and has catch-all
arms for the remaining variants; `WebGl` stands for those. -/
inductive Api where
  | OpenGl
  | OpenGlEs
  | WebGl
deriving DecidableEq, Repr

/-- Modelled from the spec: `crate::config::Version(major, minor)`. -/
structure Version where
  major : Nat
  minor : Nat
deriving DecidableEq, Repr

/-- Modelled from the spec: `crate::config::SwapInterval`. -/
inductive SwapInterval where
  | DontWait
  | Wait (n : Nat)
  | AdaptiveWait (n : Nat)
deriving DecidableEq, Repr

/-- Modelled from the spec: `crate::config::SwapIntervalRange`; `Wait lo hi`
embeds the Rust half-open range `lo..hi`. -/
inductive SwapIntervalRange where
  | DontWait
  | Wait (lo hi : Nat)
  | AdaptiveWait (lo hi : Nat)
deriving DecidableEq, Repr

/-- Modelled from the spec: `crate::config::ReleaseBehavior`. -/
inductive ReleaseBehavior where
  | Flush
  | NoFlush
deriving DecidableEq, Repr

/-- Modelled from the spec: `crate::context::Robustness`. -/
inductive Robustness where
  | NotRobust
  | NoError
  | RobustNoResetNotification
  | TryRobustNoResetNotification
  | RobustLoseContextOnReset
  | TryRobustLoseContextOnReset
deriving DecidableEq, Repr

/-- The error kinds of `winit_types::error` used by the EGL backend.
`OsMisc` embeds `OsError::Misc` with its formatted message. -/
inductive ErrorType where
  | NotSupported (msg : String)
  | OpenGlVersionNotSupported
  | RobustnessNotSupported
  | AdaptiveSwapControlNotSupported
  | FlushControlNotSupported
  | NoAvailableConfig
  | ContextLost
  | OsMisc (msg : String)
deriving DecidableEq, Repr

/-- Outcome of an operation returning `Result<_, Error>` with a single
error, where the Rust code may additionally panic (`unwrap`/`unreachable`). -/
inductive RRes (α : Type) where
  | ok (val : α)
  | fail (e : ErrorType)
  | panic
deriving DecidableEq, Repr

/-- Sequencing of fallible computations, mirroring the Rust `?` operator
on `Result` (failures and panics propagate). -/
def RRes.bind {α β : Type} : RRes α → (α → RRes β) → RRes β
  | .ok a, f => f a
  | .fail e, _ => .fail e
  | .panic, _ => .panic

theorem RRes.bind_ok {α β : Type} {m : RRes α} {f : α → RRes β} {b : β}
    (h : RRes.bind m f = .ok b) : ∃ a, m = .ok a ∧ f a = .ok b := by
  cases m with
  | ok a => exact ⟨a, rfl, h⟩
  | fail e => exact absurd h (by simp [RRes.bind])
  | panic => exact absurd h (by simp [RRes.bind])

/-- Outcome of `Config::new`, whose error side is the accumulated error
aggregate (`errors.append(..)` on a `winit_types` Error); embedded as the
list of accumulated error kinds in append order. -/
inductive AggRes (α : Type) where
  | ok (val : α)
  | err (errs : List ErrorType)
  | panic
deriving DecidableEq, Repr

/-- Rust lexicographic `>=` on the `(EGLint, EGLint)` version pair. -/
def vge (a b : Int × Int) : Bool :=
  decide (b.1 < a.1) || (a.1 == b.1 && decide (b.2 ≤ a.2))

/-- Rust lexicographic `<` on the `(EGLint, EGLint)` version pair. -/
def vlt (a b : Int × Int) : Bool :=
  decide (a.1 < b.1) || (a.1 == b.1 && decide (a.2 < b.2))

/-- Rust `as u8` truncation of an `i32` attribute value. -/
def u8w (i : Int) : Nat := (i % 256).toNat

/-- Rust `as u16` truncation of an `i32` attribute value. -/
def u16w (i : Int) : Nat := (i % 65536).toNat

/-- Rust `as i32` conversion of a `u32` value (two's-complement wrap). -/
def i32w (n : Nat) : Int := ((n : Int) + 2 ^ 31) % 2 ^ 32 - 2 ^ 31

/-- The `Display` struct: native handle omitted (opaque), version and the
two extension-name sets kept. -/
structure Display where
  egl_version : Int × Int
  extensions : List String
  client_extensions : List String
deriving DecidableEq, Repr

/-- `Display::has_extension`: membership in the post-init extension set. -/
def Display.has_extension (d : Display) (e : String) : Bool :=
  d.extensions.any (fun s => s == e)

/-- Modelled from the spec: `crate::config::ConfigBuilder` (declaration not
under src/); fields and types reconstructed from their uses in
`Config::new`.  `x11_visual_xid` stands for `plat_attr.x11_visual_xid`. -/
structure ConfigBuilder where
  version : Api × Version
  window_surface_support : Bool
  pbuffer_surface_support : Bool
  pixmap_surface_support : Bool
  surfaceless_support : Bool
  hardware_accelerated : Option Bool
  color_bits : Option Nat
  alpha_bits : Option Nat
  depth_bits : Option Nat
  stencil_bits : Option Nat
  double_buffer : Option Bool
  multisampling : Option Nat
  stereoscopy : Bool
  srgb : Option Bool
  desired_swap_interval : Option SwapInterval
  release_behavior : ReleaseBehavior
  x11_visual_xid : Option Nat
deriving DecidableEq, Repr

/-- Modelled from the spec: `crate::config::ConfigAttribs`, with exactly the
fields `Config::new` fills in. -/
structure ConfigAttribs where
  version : Api × Version
  window_surface_support : Bool
  pbuffer_surface_support : Bool
  pixmap_surface_support : Bool
  surfaceless_support : Bool
  hardware_accelerated : Bool
  color_bits : Nat
  alpha_bits : Nat
  depth_bits : Nat
  stencil_bits : Nat
  stereoscopy : Bool
  double_buffer : Bool
  multisampling : Option Nat
  release_behavior : ReleaseBehavior
  srgb : Bool
  desired_swap_interval : SwapInterval
  swap_interval_ranges : List SwapIntervalRange
deriving DecidableEq, Repr

/-- The EGL `Config` struct: owning display, chosen version pair and the
native config id (an opaque handle, embedded as `Nat`). -/
structure Config where
  display : Display
  version : Api × Version
  config_id : Nat
deriving DecidableEq, Repr

/-- The per-channel red size pushed for a total color-bit request
(`color / 3` in `Config::new`). -/
def red_size_of (color : Nat) : Nat := color / 3

/-- The per-channel green size pushed for a total color-bit request
(`color / 3 + if color % 3 != 0 then 1 else 0` in `Config::new`). -/
def green_size_of (color : Nat) : Nat :=
  color / 3 + (if color % 3 ≠ 0 then 1 else 0)

/-- The per-channel blue size pushed for a total color-bit request
(`color / 3 + if color % 3 == 2 then 1 else 0` in `Config::new`). -/
def blue_size_of (color : Nat) : Nat :=
  color / 3 + (if color % 3 = 2 then 1 else 0)

/-- The attribute-filter descriptor assembled by `Config::new`
(lines 449-580 of egl.rs): a flat `(key, value)` list ended by `EGL_NONE`.
`errors` is the error aggregate accumulated so far, returned by the early
`return Err(errors)` exits; `unimplemented` arms are `panic`. -/
def build_descriptor (cb : ConfigBuilder) (display : Display)
    (errors : List ErrorType) : AggRes (List Int) :=
  let out0 : List Int :=
    if vge display.egl_version (1, 2) then
      [egl_COLOR_BUFFER_TYPE, egl_RGB_BUFFER]
    else []
  let stype : Nat :=
    (if cb.window_surface_support then egl_WINDOW_BIT else 0) |||
    (if cb.pbuffer_surface_support then egl_PBUFFER_BIT else 0) |||
    (if cb.pixmap_surface_support then egl_PIXMAP_BIT else 0)
  let out1 : List Int := out0 ++ [egl_SURFACE_TYPE, (stype : Int)]
  let renderable : AggRes (List Int) :=
    match cb.version.1, cb.version.2.major with
    | .OpenGlEs, 3 =>
      if vlt display.egl_version (1, 3) then .err errors
      else .ok [egl_RENDERABLE_TYPE, egl_OPENGL_ES3_BIT,
                egl_CONFORMANT, egl_OPENGL_ES3_BIT]
    | .OpenGlEs, 2 =>
      if vlt display.egl_version (1, 3) then .err errors
      else .ok [egl_RENDERABLE_TYPE, egl_OPENGL_ES2_BIT,
                egl_CONFORMANT, egl_OPENGL_ES2_BIT]
    | .OpenGlEs, 1 =>
      if vge display.egl_version (1, 3) then
        .ok [egl_RENDERABLE_TYPE, egl_OPENGL_ES_BIT,
             egl_CONFORMANT, egl_OPENGL_ES_BIT]
      else .ok []
    | .OpenGlEs, _ => .panic
    | .OpenGl, _ =>
      if vlt display.egl_version (1, 3) then .err errors
      else .ok [egl_RENDERABLE_TYPE, egl_OPENGL_BIT,
                egl_CONFORMANT, egl_OPENGL_BIT]
    | .WebGl, _ => .panic
  match renderable with
  | .err e => .err e
  | .panic => .panic
  | .ok rbits =>
    let out2 := out1 ++ rbits
    let out3 :=
      match cb.hardware_accelerated with
      | some hw =>
        out2 ++ [egl_CONFIG_CAVEAT, if hw then egl_NONE else egl_SLOW_CONFIG]
      | none => out2
    let out4 :=
      match cb.color_bits with
      | some color =>
        out3 ++ [egl_RED_SIZE, (red_size_of color : Int),
                 egl_GREEN_SIZE, (green_size_of color : Int),
                 egl_BLUE_SIZE, (blue_size_of color : Int)]
      | none => out3
    let out5 :=
      match cb.alpha_bits with
      | some alpha => out4 ++ [egl_ALPHA_SIZE, (alpha : Int)]
      | none => out4
    let out6 :=
      match cb.depth_bits with
      | some depth => out5 ++ [egl_DEPTH_SIZE, (depth : Int)]
      | none => out5
    let out7 :=
      match cb.stencil_bits with
      | some stencil => out6 ++ [egl_STENCIL_SIZE, (stencil : Int)]
      | none => out6
    if cb.double_buffer = some true then .err errors
    else
      let out8 :=
        match cb.multisampling with
        | some ms => out7 ++ [egl_SAMPLES, (ms : Int)]
        | none => out7
      if cb.stereoscopy then .err errors
      else
        let out9 :=
          match cb.x11_visual_xid with
          | some xid => out8 ++ [egl_NATIVE_VISUAL_ID, (xid : Int)]
          | none => out8
        match cb.release_behavior with
        | .NoFlush =>
          if !(display.has_extension "EGL_KHR_context_flush_control") then
            .err (errors ++ [.FlushControlNotSupported])
          else finish_descriptor cb display errors out9
        | .Flush => finish_descriptor cb display errors out9
where
  /-- The tail of the descriptor assembly: the sRGB capability check and the
  `EGL_NONE` terminator. -/
  finish_descriptor (cb : ConfigBuilder) (display : Display)
      (errors : List ErrorType) (out : List Int) : AggRes (List Int) :=
    match cb.srgb with
    | some s =>
      if s && !(display.has_extension "EGL_KHR_gl_colorspace") then
        .err errors
      else .ok (out ++ [egl_NONE])
    | none => .ok (out ++ [egl_NONE])

/-- The native driver responses consumed by `Config::new`: the result of
`eglBindAPI`, of `eglChooseConfig` (failure carries the `eglGetError` code,
success the matching config ids), and of each `eglGetConfigAttrib` query
keyed by (config id, attribute). -/
structure EglOracle where
  bindApiOk : Bool
  chooseConfig : List Int → Except Nat (List Nat)
  getConfigAttrib : Nat → Int → Except Nat Int

/-- The `attrib!` macro of `Config::new`: one `eglGetConfigAttrib` query,
a zero return mapped to an `OsError::Misc`. -/
def attrib (o : EglOracle) (conf : Nat) (a : Int) : RRes Int :=
  match o.getConfigAttrib conf a with
  | .error code =>
    .fail (.OsMisc ("eglGetConfigAttrib failed with " ++ toString code))
  | .ok v => .ok v

/-- Rust `try_into::<u32>().unwrap()` on an `i32`: panics when negative. -/
def toNatChecked (i : Int) : RRes Nat :=
  if i < 0 then .panic else .ok i.toNat

/-- `Display::bind_api` (egl.rs lines 307-323): returns the operation
result together with the `eglBindAPI` native call issued, if any. -/
def Display.bind_api (api : Api) (egl_version : Int × Int)
    (bindApiOk : Bool) : RRes Unit × List Int :=
  if vge egl_version (1, 2) then
    let rc : Nat × List Int :=
      match api with
      | .OpenGl =>
        if vge egl_version (1, 4) then
          ((if bindApiOk then egl_TRUE else egl_FALSE), [egl_OPENGL_API])
        else (egl_FALSE, [])
      | .OpenGlEs =>
        if vge egl_version (1, 2) then
          ((if bindApiOk then egl_TRUE else egl_FALSE), [egl_OPENGL_ES_API])
        else (egl_TRUE, [])
      | .WebGl => (egl_FALSE, [])
    if rc.1 = egl_FALSE then (.fail .OpenGlVersionNotSupported, rc.2)
    else (.ok (), rc.2)
  else (.ok (), [])

/-- The swap-interval candidate filter of `Config::new` (lines 647-696):
drops each config whose `[MIN_SWAP_INTERVAL, MAX_SWAP_INTERVAL]` range does
not contain the desired interval, recording one error per dropped config. -/
def swap_interval_filter (o : EglOracle) (dsi : Int) :
    List Nat → List ErrorType → List Nat × List ErrorType
  | [], errs => ([], errs)
  | c :: rest, errs =>
    match o.getConfigAttrib c egl_MIN_SWAP_INTERVAL with
    | .error code =>
      swap_interval_filter o dsi rest
        (errs ++ [.OsMisc ("eglGetConfigAttrib failed with " ++ toString code)])
    | .ok mn =>
      if dsi < mn then
        swap_interval_filter o dsi rest
          (errs ++ [.OsMisc ("Desired swap interval smaller than minimum for "
            ++ toString c)])
      else
        match o.getConfigAttrib c egl_MAX_SWAP_INTERVAL with
        | .error code =>
          swap_interval_filter o dsi rest
            (errs ++ [.OsMisc ("eglGetConfigAttrib failed with " ++ toString code)])
        | .ok mx =>
          if dsi > mx then
            swap_interval_filter o dsi rest
              (errs ++ [.OsMisc ("Desired swap interval bigger than maximum for "
                ++ toString c)])
          else
            let r := swap_interval_filter o dsi rest errs
            (c :: r.1, r.2)

/-- The first filtering pass over the caller-supplied selector output
(lines 702-710): selector errors are appended to the aggregate and the
corresponding candidate dropped. -/
def filter_selector :
    List (Except ErrorType Nat) → List ErrorType → List Nat × List ErrorType
  | [], errs => ([], errs)
  | .error e :: rest, errs => filter_selector rest (errs ++ [e])
  | .ok c :: rest, errs =>
    let r := filter_selector rest errs
    (c :: r.1, r.2)

/-- The per-config attribute read-back of `Config::new` (lines 711-766):
swap-interval range, caveat, channel sizes, sample count, and the assembled
`ConfigAttribs`.  A negative native swap-interval value panics
(`try_into().unwrap()`); `as u8` / `as u16` casts truncate (release
semantics). -/
def process_config (cb : ConfigBuilder) (o : EglOracle) (c : Nat) :
    RRes (ConfigAttribs × Nat) :=
  RRes.bind (attrib o c egl_MIN_SWAP_INTERVAL) fun minsi =>
  RRes.bind (toNatChecked minsi) fun min_swap_interval =>
  RRes.bind (attrib o c egl_MAX_SWAP_INTERVAL) fun maxsi =>
  RRes.bind (toNatChecked maxsi) fun max_swap_interval =>
  let swap_interval_ranges : List SwapIntervalRange :=
    if min_swap_interval = 0 && max_swap_interval = 0 then
      [.DontWait]
    else if min_swap_interval = 0 then
      [.Wait 1 max_swap_interval, .DontWait]
    else
      [.Wait min_swap_interval max_swap_interval]
  RRes.bind (attrib o c egl_CONFIG_CAVEAT) fun caveat =>
  RRes.bind (attrib o c egl_RED_SIZE) fun red =>
  RRes.bind (attrib o c egl_BLUE_SIZE) fun blue =>
  RRes.bind (attrib o c egl_GREEN_SIZE) fun green =>
  RRes.bind (attrib o c egl_ALPHA_SIZE) fun alpha =>
  RRes.bind (attrib o c egl_DEPTH_SIZE) fun depth =>
  RRes.bind (attrib o c egl_STENCIL_SIZE) fun stencil =>
  RRes.bind (attrib o c egl_SAMPLES) fun samples =>
  .ok
    ({ version := cb.version
       window_surface_support := cb.window_surface_support
       pbuffer_surface_support := cb.pbuffer_surface_support
       pixmap_surface_support := cb.pixmap_surface_support
       surfaceless_support := cb.surfaceless_support
       hardware_accelerated := caveat ≠ egl_SLOW_CONFIG
       color_bits := (u8w red + u8w blue + u8w green) % 256
       alpha_bits := u8w alpha
       depth_bits := u8w depth
       stencil_bits := u8w stencil
       stereoscopy := false
       double_buffer := true
       multisampling :=
         if samples = 0 || samples = 1 then none
         else some (u16w samples)
       release_behavior := cb.release_behavior
       srgb := cb.srgb.getD false
       desired_swap_interval :=
         cb.desired_swap_interval.getD
           (match swap_interval_ranges with
            | .DontWait :: _ => SwapInterval.DontWait
            | .Wait lo _ :: _ => SwapInterval.Wait lo
            | _ => SwapInterval.DontWait)
       swap_interval_ranges := swap_interval_ranges },
     c)

/-- The second filtering pass of `Config::new` (lines 768-777): per-config
errors are appended to the aggregate and the config dropped; a panic during
any per-config computation aborts the whole call. -/
def collect_processed :
    List (RRes (ConfigAttribs × Nat)) → List ErrorType →
    AggRes (List (ConfigAttribs × Nat) × List ErrorType)
  | [], errs => .ok ([], errs)
  | .panic :: _, _ => .panic
  | .fail e :: rest, errs => collect_processed rest (errs ++ [e])
  | .ok p :: rest, errs =>
    match collect_processed rest errs with
    | .panic => .panic
    | .err e => .err e
    | .ok r => .ok (p :: r.1, r.2)

/-- Forcing the sRGB flag of an attribute set on (`new_conf.0.srgb = true`
at line 787). -/
def force_srgb (a : ConfigAttribs) : ConfigAttribs := { a with srgb := true }

/-- The final wrapping step of `Config::new` (lines 792-804): pair each
attribute set with a `Config` holding the shared display, the requested
version and the native config id. -/
def wrap_config (cb : ConfigBuilder) (display : Display)
    (p : ConfigAttribs × Nat) : ConfigAttribs × Config :=
  (p.1, { display := display, version := cb.version, config_id := p.2 })

/-- The tail of `Config::new` (lines 779-804): fail with the aggregate when
no config survived; when the caller left sRGB unspecified, append a copy of
every surviving config with sRGB forced on; wrap the ids into `Config`s. -/
def finalize_configs (cb : ConfigBuilder) (display : Display)
    (pairs : List (ConfigAttribs × Nat)) (errors : List ErrorType) :
    AggRes (List (ConfigAttribs × Config)) :=
  if pairs.isEmpty then .err errors
  else
    let pairs2 :=
      if cb.srgb.isNone then
        pairs ++ pairs.map (fun p => (force_srgb p.1, p.2))
      else pairs
    .ok (pairs2.map (wrap_config cb display))

/-- `Config::new` (egl.rs lines 408-805).  The `Display` is the one
`Display::new` resolved; `o` holds the native responses; `conf_selector` is
the caller-supplied selector.  The result is the ordered
`(ConfigAttribs, Config)` list, the accumulated error aggregate, or a
panic. -/
def Config.new (cb : ConfigBuilder) (display : Display) (o : EglOracle)
    (conf_selector : List Nat → List (Except ErrorType Nat)) :
    AggRes (List (ConfigAttribs × Config)) :=
  if cb.surfaceless_support &&
      !(display.extensions.any (fun s => s == "EGL_KHR_surfaceless_context"))
  then .err [.NotSupported "EGL surfaceless not supported"]
  else
    match (Display.bind_api cb.version.1 display.egl_version o.bindApiOk).1 with
    | .fail e => .err [e]
    | .panic => .panic
    | .ok _ =>
      let errors0 : List ErrorType := [.NoAvailableConfig]
      match cb.desired_swap_interval with
      | some (.AdaptiveWait _) =>
        .err (errors0 ++ [.AdaptiveSwapControlNotSupported])
      | _ =>
        match build_descriptor cb display errors0 with
        | .err e => .err e
        | .panic => .panic
        | .ok descriptor =>
          match o.chooseConfig descriptor with
          | .error code =>
            .err (errors0 ++
              [.OsMisc ("eglChooseConfig failed with " ++ toString code)])
          | .ok ids =>
            if ids.length = 0 then .err errors0
            else
              let filtered : List Nat × List ErrorType :=
                match cb.desired_swap_interval with
                | some dsi =>
                  let dsin : Nat :=
                    match dsi with
                    | .Wait n => n
                    | .DontWait => 0
                    | .AdaptiveWait _ => 0
                  swap_interval_filter o (i32w dsin) ids errors0
                | none => (ids, errors0)
              if filtered.1.isEmpty then .err filtered.2
              else
                let selected :=
                  filter_selector (conf_selector filtered.1) filtered.2
                match collect_processed
                    (selected.1.map (process_config cb o)) selected.2 with
                | .panic => .panic
                | .err e => .err e
                | .ok done => finalize_configs cb display done.1 done.2

/-- Modelled from the spec: `crate::context::ContextBuilderWrapper`
(declaration not under src/) — the fields `Context::new` consumes; the
`sharing` context only feeds the native call and carries no other logic. -/
structure ContextBuilder where
  robustness : Robustness
  debug : Bool
deriving DecidableEq, Repr

/-- The robustness arm of `Context::new`'s extended attribute path
(egl.rs lines 862-921): returns the attribute pairs to append and the
context-flags bits accumulated, or the hard `RobustnessNotSupported`
error for the two strict variants without the capability. -/
def robustness_attributes (r : Robustness) (supports_robustness : Bool)
    (has_no_error_ext : Bool) : RRes (List Int × Nat) :=
  match r with
  | .NotRobust => .ok ([], 0)
  | .NoError =>
    if has_no_error_ext then .ok ([egl_CONTEXT_OPENGL_NO_ERROR_KHR, 1], 0)
    else .ok ([], 0)
  | .RobustNoResetNotification =>
    if supports_robustness then
      .ok ([egl_CONTEXT_OPENGL_RESET_NOTIFICATION_STRATEGY,
            egl_NO_RESET_NOTIFICATION],
           0 ||| egl_CONTEXT_OPENGL_ROBUST_ACCESS)
    else .fail .RobustnessNotSupported
  | .TryRobustNoResetNotification =>
    if supports_robustness then
      .ok ([egl_CONTEXT_OPENGL_RESET_NOTIFICATION_STRATEGY,
            egl_NO_RESET_NOTIFICATION],
           0 ||| egl_CONTEXT_OPENGL_ROBUST_ACCESS)
    else .ok ([], 0)
  | .RobustLoseContextOnReset =>
    if supports_robustness then
      .ok ([egl_CONTEXT_OPENGL_RESET_NOTIFICATION_STRATEGY,
            egl_LOSE_CONTEXT_ON_RESET],
           0 ||| egl_CONTEXT_OPENGL_ROBUST_ACCESS)
    else .fail .RobustnessNotSupported
  | .TryRobustLoseContextOnReset =>
    if supports_robustness then
      .ok ([egl_CONTEXT_OPENGL_RESET_NOTIFICATION_STRATEGY,
            egl_LOSE_CONTEXT_ON_RESET],
           0 ||| egl_CONTEXT_OPENGL_ROBUST_ACCESS)
    else .ok ([], 0)

/-- The tail of `Context::new` (lines 958-997): append the release-behavior
attribute when applicable, terminate the list, invoke `eglCreateContext`
(`createErr = some code` models a null return with that `eglGetError`
code) and map `BAD_MATCH`/`BAD_ATTRIBUTE` to the version error.  On
success the assembled attribute list is returned for inspection. -/
def context_finish (release_behavior : ReleaseBehavior) (display : Display)
    (attrs : List Int) (createErr : Option Nat) : RRes (List Int) :=
  let attrs4 :=
    match release_behavior with
    | .Flush =>
      if display.has_extension "EGL_KHR_context_flush_control" then
        attrs ++ [egl_CONTEXT_RELEASE_BEHAVIOR_KHR,
                  egl_CONTEXT_RELEASE_BEHAVIOR_FLUSH_KHR]
      else attrs
    | .NoFlush =>
      attrs ++ [egl_CONTEXT_RELEASE_BEHAVIOR_KHR,
                egl_CONTEXT_RELEASE_BEHAVIOR_NONE_KHR]
  let attrs5 := attrs4 ++ [egl_NONE]
  match createErr with
  | none => .ok attrs5
  | some code =>
    if code = egl_BAD_MATCH || code = egl_BAD_ATTRIBUTE then
      .fail .OpenGlVersionNotSupported
    else .fail (.OsMisc ("eglCreateContext failed with " ++ toString code))

/-- `Context::new` (egl.rs lines 821-1004): bind the API, build the context
attribute list along the extended path (protocol ≥ 1.5 or
`EGL_KHR_create_context`), the legacy ES path (protocol in [1.3, 1.5)), or
no version attributes at all, then create.  `api`/`version`/
`release_behavior` come from the chosen config's attributes. -/
def Context.new (cb : ContextBuilder) (api : Api) (version : Version)
    (release_behavior : ReleaseBehavior) (display : Display)
    (bindApiOk : Bool) (createErr : Option Nat) : RRes (List Int) :=
  match (Display.bind_api api display.egl_version bindApiOk).1 with
  | .fail e => .fail e
  | .panic => .panic
  | .ok _ =>
    if vge display.egl_version (1, 5) ||
        display.extensions.any (fun s => s == "EGL_KHR_create_context") then
      let base := [egl_CONTEXT_MAJOR_VERSION, (version.major : Int),
                   egl_CONTEXT_MINOR_VERSION, (version.minor : Int)]
      let supports_robustness :=
        vge display.egl_version (1, 5) ||
        display.extensions.any
          (fun s => s == "EGL_EXT_create_context_robustness")
      match robustness_attributes cb.robustness supports_robustness
          (display.has_extension "EGL_KHR_create_context_no_error") with
      | .fail e => .fail e
      | .panic => .panic
      | .ok rf =>
        let attrs1 := base ++ rf.1
        let attrs2 :=
          if cb.debug && vge display.egl_version (1, 5) then
            attrs1 ++ [egl_CONTEXT_OPENGL_DEBUG, (egl_TRUE : Int)]
          else attrs1
        let attrs3 :=
          if rf.2 ≠ 0 then attrs2 ++ [egl_CONTEXT_FLAGS_KHR, (rf.2 : Int)]
          else attrs2
        context_finish release_behavior display attrs3 createErr
    else if vge display.egl_version (1, 3) && api == .OpenGlEs then
      match cb.robustness with
      | .RobustNoResetNotification => .fail .RobustnessNotSupported
      | .RobustLoseContextOnReset => .fail .RobustnessNotSupported
      | _ =>
        context_finish release_behavior display
          [egl_CONTEXT_CLIENT_VERSION, (version.major : Int)] createErr
    else context_finish release_behavior display [] createErr

/-- A native EGL call issued by a currency or presentation operation;
handles are opaque `Nat`s with `0` embedding `NO_SURFACE`/`NO_CONTEXT`. -/
inductive NativeCall where
  | makeCurrent (draw read ctx : Nat)
  | swapIntervalCall (n : Int)
  | swapBuffersCall (surf : Nat)
deriving DecidableEq, Repr

/-- `Context::check_make_current` (lines 1159-1172): a `Some(0)` return
inspects `eglGetError`, mapping `CONTEXT_LOST` to the ContextLost error and
anything else to an OS error carrying the code; `None` and non-zero
returns succeed. -/
def check_make_current (ret : Option Nat) (errCode : Nat) : RRes Unit :=
  if ret = some 0 then
    if errCode = egl_CONTEXT_LOST then .fail .ContextLost
    else
      .fail (.OsMisc ("eglMakeCurrent failed (eglGetError returned "
        ++ toString errCode ++ ")"))
  else .ok ()

/-- The `T::surface_type()` tag of a `Surface<T>`. -/
inductive SurfaceKind where
  | Window
  | PBuffer
  | Pixmap
deriving DecidableEq, Repr

/-- The state of one `Surface<T>` that `make_current` touches: its native
handle, kind tag, the config's desired swap interval and the mutex-guarded
`has_been_current` flag. -/
structure SurfaceState where
  surface : Nat
  kind : SurfaceKind
  desired_swap_interval : SwapInterval
  has_been_current : Bool
deriving DecidableEq, Repr

/-- Native responses consumed by one `make_current` call: the
`eglMakeCurrent` return value, the `eglGetError` code read on failure, and
whether `eglSwapInterval` succeeds. -/
structure MakeCurrentNative where
  mcRet : Nat
  mcErr : Nat
  siOk : Bool
deriving DecidableEq, Repr

/-- `Context::make_current` (egl.rs lines 1006-1033): bind the surface and
context, then — only on the first successful bind of a `Window` surface —
issue `eglSwapInterval` with the config's desired interval, setting the
`has_been_current` flag only after that call succeeds.  The result carries
the operation outcome, the updated surface state and the native calls
issued, in order.  The `AdaptiveWait` arm is `unreachable!()` in the
source, embedded as `panic`. -/
def Context.make_current (ctx disp : Nat) (surf : SurfaceState)
    (nat : MakeCurrentNative) :
    RRes Unit × SurfaceState × List NativeCall :=
  let calls0 := [NativeCall.makeCurrent surf.surface surf.surface ctx]
  match check_make_current (some nat.mcRet) nat.mcErr with
  | .fail e => (.fail e, surf, calls0)
  | .panic => (.panic, surf, calls0)
  | .ok _ =>
    if !surf.has_been_current && surf.kind == SurfaceKind.Window then
      match surf.desired_swap_interval with
      | .AdaptiveWait _ => (.panic, surf, calls0)
      | dsi =>
        let n : Nat :=
          match dsi with
          | .Wait k => k
          | _ => 0
        let calls1 := calls0 ++ [NativeCall.swapIntervalCall (i32w n)]
        if !nat.siOk then
          (.fail (.OsMisc "eglSwapInterval failed"), surf, calls1)
        else
          (.ok (), { surf with has_been_current := true }, calls1)
    else (.ok (), surf, calls0)

/-- A sequence of `make_current` calls on the same surface, threading the
surface state and concatenating the native-call traces. -/
def run_make_currents (ctx disp : Nat) :
    SurfaceState → List MakeCurrentNative →
    List (RRes Unit) × SurfaceState × List NativeCall
  | surf, [] => ([], surf, [])
  | surf, nat :: rest =>
    let step := Context.make_current ctx disp surf nat
    let tail := run_make_currents ctx disp step.2.1 rest
    (step.1 :: tail.1, tail.2.1, step.2.2 ++ tail.2.2)

/-- Whether a native call is an `eglSwapInterval` invocation. -/
def is_swap_interval_call : NativeCall → Bool
  | .swapIntervalCall _ => true
  | _ => false

/-- Count of `eglSwapInterval` invocations in a native-call trace. -/
def swap_interval_calls (calls : List NativeCall) : Nat :=
  (calls.filter is_swap_interval_call).length

/-- The thread's current native binding, as `eglGetCurrentContext` and
`eglGetCurrentSurface` report it (`0` = none). -/
structure ThreadState where
  current_ctx : Nat
  draw : Nat
  read : Nat
deriving DecidableEq, Repr

/-- `Context::make_not_current` (egl.rs lines 1049-1064): only when this
context is the thread's current context does it issue the native unbind
with `NO_SURFACE`/`NO_CONTEXT`; otherwise no native call is made and the
call reports success.  On a successful unbind the thread binding becomes
neutral. -/
def Context.make_not_current (ctx disp : Nat) (ts : ThreadState)
    (mcRet mcErr : Nat) : RRes Unit × ThreadState × List NativeCall :=
  if ts.current_ctx = ctx then
    let r := check_make_current (some mcRet) mcErr
    let ts2 := if mcRet = 0 then ts else { current_ctx := 0, draw := 0, read := 0 }
    (r, ts2, [NativeCall.makeCurrent 0 0 0])
  else (check_make_current none 0, ts, [])

/-- `Surface::<Window>::swap_buffers` (egl.rs lines 1339-1360): an already
invalidated handle (`NO_SURFACE`, written by the surface's `Drop`) is a
ContextLost error before any native call; otherwise `eglSwapBuffers` is
issued (`sbRet = 0` models failure with `eglGetError` code `sbErr`),
`CONTEXT_LOST` maps to ContextLost and any other code to an OS error
carrying it. -/
def Surface.swap_buffers (disp surface : Nat) (sbRet sbErr : Nat) :
    RRes Unit × List NativeCall :=
  if surface = 0 then (.fail .ContextLost, [])
  else
    let calls := [NativeCall.swapBuffersCall surface]
    if sbRet = 0 then
      if sbErr = egl_CONTEXT_LOST then (.fail .ContextLost, calls)
      else
        (.fail (.OsMisc ("eglSwapBuffers failed with " ++ toString sbErr)),
         calls)
    else (.ok (), calls)

/-- Whether a list of ints contains `pat` as a leading run. -/
def starts_with_seq : List Int → List Int → Bool
  | [], _ => true
  | _ :: _, [] => false
  | a :: pat, b :: l => a == b && starts_with_seq pat l

/-- Whether a list of ints contains `pat` as a contiguous run. -/
def contains_seq (pat : List Int) : List Int → Bool
  | [] => starts_with_seq pat []
  | a :: rest => starts_with_seq pat (a :: rest) || contains_seq pat rest

/-- Fixture: a minimal well-formed ES 2.0 config request leaving every
optional knob unset. -/
def base_builder : ConfigBuilder :=
  { version := (.OpenGlEs, ⟨2, 0⟩)
    window_surface_support := true
    pbuffer_surface_support := false
    pixmap_surface_support := false
    surfaceless_support := false
    hardware_accelerated := none
    color_bits := none
    alpha_bits := none
    depth_bits := none
    stencil_bits := none
    double_buffer := none
    multisampling := none
    stereoscopy := false
    srgb := none
    desired_swap_interval := none
    release_behavior := .Flush
    x11_visual_xid := none }

/-- Fixture: an EGL 1.4 display with no extensions. -/
def display14 : Display :=
  { egl_version := (1, 4), extensions := [], client_extensions := [] }

/-- Fixture: a driver exposing one matching config (id 7) whose every
queried attribute is 0. -/
def oracle0 : EglOracle :=
  { bindApiOk := true
    chooseConfig := fun _ => .ok [7]
    getConfigAttrib := fun _ _ => .ok 0 }

/-- Fixture: the identity selector, accepting every candidate. -/
def id_selector : List Nat → List (Except ErrorType Nat) :=
  fun ids => ids.map .ok

/-- The config list selected for `base_builder` on the fixture display. -/
def c1_list : List (ConfigAttribs × Config) :=
  match Config.new base_builder display14 oracle0 id_selector with
  | .ok l => l
  | _ => []

/-- The config list selected when double buffering is explicitly
disabled. -/
def c8_list : List (ConfigAttribs × Config) :=
  match Config.new { base_builder with double_buffer := some false }
      display14 oracle0 id_selector with
  | .ok l => l
  | _ => []

/-- The native attribute-filter descriptor built for a request, on the
fixture display with the base aggregate. -/
def descriptor_of (cb : ConfigBuilder) : List Int :=
  match build_descriptor cb display14 [.NoAvailableConfig] with
  | .ok d => d
  | _ => []

/-- Fixture: a request with an adaptive swap interval. -/
def cb_adaptive : ConfigBuilder :=
  { base_builder with desired_swap_interval := some (.AdaptiveWait 1) }

/-- Fixture: a request triggering both the adaptive-sync and the
stereoscopy up-front checks. -/
def cb_adaptive_stereo : ConfigBuilder :=
  { cb_adaptive with stereoscopy := true }

/-- Fixture: a desktop GL request with double buffering explicitly
enabled. -/
def cb_gl_db : ConfigBuilder :=
  { base_builder with version := (.OpenGl, ⟨3, 3⟩), double_buffer := some true }

/-- Fixture: a desktop GL request with stereoscopy requested. -/
def cb_gl_stereo : ConfigBuilder :=
  { base_builder with version := (.OpenGl, ⟨3, 3⟩), stereoscopy := true }

/-- Fixture: an EGL 1.4 display reporting only `EGL_KHR_create_context`. -/
def display14_khr : Display :=
  { egl_version := (1, 4)
    extensions := ["EGL_KHR_create_context"]
    client_extensions := [] }

/-- Fixture: an EGL 1.4 display reporting the create-context and
robustness extensions. -/
def display14_khr_rob : Display :=
  { egl_version := (1, 4)
    extensions := ["EGL_KHR_create_context", "EGL_EXT_create_context_robustness"]
    client_extensions := [] }

/-- Fixture: an EGL 1.2 display with no extension strings. -/
def display12 : Display :=
  { egl_version := (1, 2), extensions := [], client_extensions := [] }

/-- Fixture: a context request with strict lose-context-on-reset
robustness. -/
def ctxb_strict : ContextBuilder :=
  { robustness := .RobustLoseContextOnReset, debug := false }

/-- Fixture: a context request with try-lose-context-on-reset
robustness. -/
def ctxb_try : ContextBuilder :=
  { robustness := .TryRobustLoseContextOnReset, debug := false }

/-- Fixture: a context request with no robustness. -/
def ctxb_plain : ContextBuilder :=
  { robustness := .NotRobust, debug := false }

/-- The attribute list built for the strict GL 3.3 request on the display
with both extensions. -/
def c5_attrs : List Int :=
  match Context.new ctxb_strict .OpenGl ⟨3, 3⟩ .Flush display14_khr_rob
      true none with
  | .ok a => a
  | _ => []

/-- Fixture: a fresh window surface. -/
def surf_w : SurfaceState :=
  { surface := 5, kind := .Window
    desired_swap_interval := .DontWait, has_been_current := false }

/-- Fixture: a fresh pbuffer surface. -/
def surf_pb : SurfaceState :=
  { surface := 6, kind := .PBuffer
    desired_swap_interval := .DontWait, has_been_current := false }

/-- Fixture: native responses for a fully successful `make_current`. -/
def mc_ok : MakeCurrentNative := { mcRet := 1, mcErr := 0, siOk := true }

/-- Fixture: native responses where the bind succeeds but
`eglSwapInterval` fails. -/
def mc_si_fail : MakeCurrentNative := { mcRet := 1, mcErr := 0, siOk := false }

theorem process_config_srgb (cb : ConfigBuilder) (o : EglOracle) (c : Nat)
    (p : ConfigAttribs × Nat) (h : process_config cb o c = .ok p) :
    p.1.srgb = cb.srgb.getD false := by
  unfold process_config at h
  obtain ⟨_, _, h⟩ := RRes.bind_ok h
  obtain ⟨_, _, h⟩ := RRes.bind_ok h
  obtain ⟨_, _, h⟩ := RRes.bind_ok h
  obtain ⟨_, _, h⟩ := RRes.bind_ok h
  obtain ⟨_, _, h⟩ := RRes.bind_ok h
  obtain ⟨_, _, h⟩ := RRes.bind_ok h
  obtain ⟨_, _, h⟩ := RRes.bind_ok h
  obtain ⟨_, _, h⟩ := RRes.bind_ok h
  obtain ⟨_, _, h⟩ := RRes.bind_ok h
  obtain ⟨_, _, h⟩ := RRes.bind_ok h
  obtain ⟨_, _, h⟩ := RRes.bind_ok h
  obtain ⟨_, _, h⟩ := RRes.bind_ok h
  cases h
  rfl

theorem collect_processed_mem (rs : List (RRes (ConfigAttribs × Nat))) :
    ∀ errs ps es, collect_processed rs errs = .ok (ps, es) →
    ∀ p ∈ ps, RRes.ok p ∈ rs := by
  induction rs with
  | nil =>
    intro errs ps es h p hp
    simp only [collect_processed] at h
    cases h
    cases hp
  | cons r rest ih =>
    intro errs ps es h p hp
    match r with
    | .panic => exact absurd h (by simp [collect_processed])
    | .fail e =>
      simp only [collect_processed] at h
      exact List.mem_cons_of_mem _ (ih _ _ _ h p hp)
    | .ok q =>
      simp only [collect_processed] at h
      split at h
      · cases h
      · cases h
      · rename_i r2 heq
        cases h
        rcases List.mem_cons.mp hp with h1 | h2
        · subst h1; exact List.mem_cons_self _ _
        · exact List.mem_cons_of_mem _ (ih _ _ _ heq p h2)

theorem dup_list_get {α : Type} (base : List α) (g : α → α)
    (i : Nat) (h1 : i < base.length)
    (h2 : i + base.length < (base ++ base.map g).length)
    (h3 : i < (base ++ base.map g).length) :
    (base ++ base.map g).get ⟨i + base.length, h2⟩ =
      g ((base ++ base.map g).get ⟨i, h3⟩) ∧
    (base ++ base.map g).get ⟨i, h3⟩ = base.get ⟨i, h1⟩ := by
  have e1 : (base ++ base.map g).get ⟨i, h3⟩ = base.get ⟨i, h1⟩ := by
    rw [List.get_eq_getElem, List.get_eq_getElem]
    exact List.getElem_append_left h1
  refine ⟨?_, e1⟩
  rw [e1, List.get_eq_getElem, List.get_eq_getElem]
  show (base ++ base.map g)[i + base.length] = g base[i]
  rw [List.getElem_append_right (Nat.le_add_left _ _)]
  simp only [Nat.add_sub_cancel]
  exact List.getElem_map g

theorem finalize_srgb_dup (cb : ConfigBuilder) (display : Display)
    (pairs : List (ConfigAttribs × Nat)) (errors : List ErrorType)
    (l : List (ConfigAttribs × Config))
    (hs : cb.srgb = none)
    (hall : ∀ p ∈ pairs, p.1.srgb = false)
    (h : finalize_configs cb display pairs errors = .ok l) :
    ∃ n, l.length = 2 * n ∧
      ∀ i, ∀ _ : i < n, ∀ h2 : i + n < l.length, ∀ h3 : i < l.length,
        (l.get ⟨i + n, h2⟩).1 = force_srgb (l.get ⟨i, h3⟩).1 ∧
        (l.get ⟨i + n, h2⟩).2 = (l.get ⟨i, h3⟩).2 ∧
        (l.get ⟨i, h3⟩).1.srgb = false := by
  unfold finalize_configs at h
  split at h
  · cases h
  · simp only [hs, Option.isNone_none, if_pos] at h
    have hl : l =
        pairs.map (wrap_config cb display) ++
        (pairs.map (wrap_config cb display)).map
          (fun q => (force_srgb q.1, q.2)) := by
      cases h
      simp only [List.map_append, List.map_map]
      rfl
    subst hl
    refine ⟨(pairs.map (wrap_config cb display)).length,
      by simp [Nat.two_mul], ?_⟩
    intro i h1 h2 h3
    obtain ⟨hg, hbi⟩ :=
      dup_list_get (pairs.map (wrap_config cb display))
        (fun q => (force_srgb q.1, q.2)) i h1 h2 h3
    refine ⟨by rw [hg], by rw [hg], ?_⟩
    rw [hbi, List.get_eq_getElem]
    have hip : i < pairs.length := by
      have := h1
      simpa using this
    calc ((pairs.map (wrap_config cb display))[i]).1.srgb
        = (wrap_config cb display pairs[i]).1.srgb := by
          rw [List.getElem_map]
      _ = pairs[i].1.srgb := rfl
      _ = false := hall _ (List.getElem_mem hip)

/-- C1: when sRGB is left unspecified (`srgb = None`) and config selection
succeeds, the returned list is exactly double the surviving-config list:
entry `i + n` equals entry `i` with the sRGB flag forced on (all else,
including the wrapped `Config`, identical), and entry `i` itself carries
`srgb = false`. -/
theorem C1_srgb_unspecified_duplication
    (cb : ConfigBuilder) (display : Display) (o : EglOracle)
    (sel : List Nat → List (Except ErrorType Nat))
    (l : List (ConfigAttribs × Config))
    (hs : cb.srgb = none)
    (h : Config.new cb display o sel = .ok l) :
    ∃ n, l.length = 2 * n ∧
      ∀ i, ∀ _ : i < n, ∀ h2 : i + n < l.length, ∀ h3 : i < l.length,
        (l.get ⟨i + n, h2⟩).1 = force_srgb (l.get ⟨i, h3⟩).1 ∧
        (l.get ⟨i + n, h2⟩).2 = (l.get ⟨i, h3⟩).2 ∧
        (l.get ⟨i, h3⟩).1.srgb = false := by
  simp only [Config.new] at h
  repeat' split at h
  all_goals try exact absurd h (by simp)
  all_goals
    rename_i done heq
    obtain ⟨ps, es⟩ := done
    refine finalize_srgb_dup cb display ps es l hs ?_ h
    intro p hp
    have hmem := collect_processed_mem _ _ _ _ heq p hp
    obtain ⟨c, _, hcp⟩ := List.mem_map.mp hmem
    rw [process_config_srgb cb o c p hcp, hs]
    rfl

/-- C1 witness: the duplication invariant evaluated on the fixture request,
whose selection succeeds with the two-element list `c1_list`. -/
theorem C1_srgb_unspecified_duplication_witness :
    ∃ n, c1_list.length = 2 * n ∧
      ∀ i, ∀ _ : i < n, ∀ h2 : i + n < c1_list.length,
        ∀ h3 : i < c1_list.length,
        (c1_list.get ⟨i + n, h2⟩).1 = force_srgb (c1_list.get ⟨i, h3⟩).1 ∧
        (c1_list.get ⟨i + n, h2⟩).2 = (c1_list.get ⟨i, h3⟩).2 ∧
        (c1_list.get ⟨i, h3⟩).1.srgb = false :=
  C1_srgb_unspecified_duplication base_builder display14 oracle0 id_selector
    c1_list rfl rfl

/-- C2: the color-bit request is split per channel exactly as claimed —
24 gives red=8, green=8, blue=8; 16 gives red=5, green=6 (remainder 1 to
green), blue=5; 17 gives red=5, green=6, blue=6 (remainder 2 to green and
blue) — both as the splitting functions and inside the assembled native
descriptor. -/
theorem C2_color_bit_decomposition :
    (red_size_of 24 = 8 ∧ green_size_of 24 = 8 ∧ blue_size_of 24 = 8) ∧
    (red_size_of 16 = 5 ∧ green_size_of 16 = 6 ∧ blue_size_of 16 = 5) ∧
    (red_size_of 17 = 5 ∧ green_size_of 17 = 6 ∧ blue_size_of 17 = 6) ∧
    contains_seq [egl_RED_SIZE, 8, egl_GREEN_SIZE, 8, egl_BLUE_SIZE, 8]
      (descriptor_of { base_builder with color_bits := some 24 }) = true ∧
    contains_seq [egl_RED_SIZE, 5, egl_GREEN_SIZE, 6, egl_BLUE_SIZE, 5]
      (descriptor_of { base_builder with color_bits := some 16 }) = true ∧
    contains_seq [egl_RED_SIZE, 5, egl_GREEN_SIZE, 6, egl_BLUE_SIZE, 6]
      (descriptor_of { base_builder with color_bits := some 17 }) = true := by
  decide

/-- C7 counterexample: a request triggering both the adaptive-sync and the
stereoscopy up-front checks returns exactly
`[NoAvailableConfig, AdaptiveSwapControlNotSupported]` — the very same
aggregate as triggering the adaptive check alone — so the aggregate does
not contain a rejection reason for each triggered check. -/
theorem C7_counterexample :
    Config.new cb_adaptive_stereo display14 oracle0 id_selector =
      .err [.NoAvailableConfig, .AdaptiveSwapControlNotSupported] ∧
    Config.new cb_adaptive_stereo display14 oracle0 id_selector =
      Config.new cb_adaptive display14 oracle0 id_selector := by
  exact ⟨rfl, rfl⟩

/-- C7 (amended): the three up-front checks short-circuit — the first
triggered check returns the accumulated aggregate immediately.  Only the
adaptive-sync check appends a check-specific reason; the double-buffering
and stereoscopy checks return the aggregate passed in without appending
one. -/
theorem C7_first_check_short_circuits
    (cb : ConfigBuilder) (display : Display) (o : EglOracle)
    (sel : List Nat → List (Except ErrorType Nat)) (k : Nat)
    (errors : List ErrorType) :
    (cb.desired_swap_interval = some (.AdaptiveWait k) →
      (cb.surfaceless_support &&
        !(display.extensions.any
          (fun s => s == "EGL_KHR_surfaceless_context"))) = false →
      (Display.bind_api cb.version.1 display.egl_version o.bindApiOk).1 =
        .ok () →
      Config.new cb display o sel =
        .err [.NoAvailableConfig, .AdaptiveSwapControlNotSupported]) ∧
    (cb.version.1 = .OpenGl → vlt display.egl_version (1, 3) = false →
      cb.double_buffer = some true →
      build_descriptor cb display errors = .err errors) ∧
    (cb.version.1 = .OpenGl → vlt display.egl_version (1, 3) = false →
      cb.double_buffer ≠ some true → cb.stereoscopy = true →
      build_descriptor cb display errors = .err errors) := by
  refine ⟨?_, ?_, ?_⟩
  · intro h1 h2 h3
    simp [Config.new, h1, h2, h3]
  · intro hapi hvlt hdb
    simp [build_descriptor, hapi, hvlt, hdb]
  · intro hapi hvlt hdb hst
    simp [build_descriptor, hapi, hvlt, hdb, hst]

/-- C7 witness: the three short-circuit behaviors at concrete requests. -/
theorem C7_first_check_short_circuits_witness :
    Config.new cb_adaptive display14 oracle0 id_selector =
      .err [.NoAvailableConfig, .AdaptiveSwapControlNotSupported] ∧
    build_descriptor cb_gl_db display14 [.NoAvailableConfig] =
      .err [.NoAvailableConfig] ∧
    build_descriptor cb_gl_stereo display14 [.NoAvailableConfig] =
      .err [.NoAvailableConfig] :=
  ⟨(C7_first_check_short_circuits cb_adaptive display14 oracle0 id_selector 1
      []).1 rfl rfl rfl,
   (C7_first_check_short_circuits cb_gl_db display14 oracle0 id_selector 1
      [.NoAvailableConfig]).2.1 rfl rfl rfl,
   (C7_first_check_short_circuits cb_gl_stereo display14 oracle0 id_selector 1
      [.NoAvailableConfig]).2.2 rfl rfl (by decide) rfl⟩

/-- C8: the double-buffering up-front check has inverted polarity — a
request with double buffering explicitly ENABLED (`Some(true)`) is
rejected with the accumulated aggregate, while one with double buffering
explicitly DISABLED (`Some(false)`) passes the check and succeeds; yet
every returned config reports `double_buffer = true`, contradicting the
check that just rejected requests for it. -/
theorem C8_double_buffer_polarity :
    Config.new { base_builder with double_buffer := some true }
      display14 oracle0 id_selector = .err [.NoAvailableConfig] ∧
    Config.new { base_builder with double_buffer := some false }
      display14 oracle0 id_selector = .ok c8_list ∧
    c8_list ≠ [] ∧
    (∀ p ∈ c8_list, p.1.double_buffer = true) :=
  ⟨rfl, rfl, by decide, by decide⟩

theorem swap_calls_append (a b : List NativeCall) :
    swap_interval_calls (a ++ b) =
      swap_interval_calls a + swap_interval_calls b := by
  simp [swap_interval_calls, List.filter_append]

theorem make_current_no_swap (ctx disp : Nat) (surf : SurfaceState)
    (nat : MakeCurrentNative)
    (h : surf.has_been_current = true ∨ surf.kind ≠ .Window) :
    (Context.make_current ctx disp surf nat).2.1 = surf ∧
    swap_interval_calls (Context.make_current ctx disp surf nat).2.2 = 0 := by
  have hcond :
      (!surf.has_been_current && surf.kind == SurfaceKind.Window) = false := by
    rcases h with h | h
    · simp [h]
    · cases hk : surf.kind <;> simp_all
  unfold Context.make_current
  split
  · simp [swap_interval_calls, is_swap_interval_call]
  · simp [swap_interval_calls, is_swap_interval_call]
  · rw [hcond]
    simp [swap_interval_calls, is_swap_interval_call]

theorem make_current_window_first (ctx disp : Nat) (surf : SurfaceState)
    (nat : MakeCurrentNative)
    (h1 : surf.has_been_current = false) (h2 : surf.kind = .Window)
    (hok : (Context.make_current ctx disp surf nat).1 = .ok ()) :
    (Context.make_current ctx disp surf nat).2.1 =
      { surf with has_been_current := true } ∧
    swap_interval_calls (Context.make_current ctx disp surf nat).2.2 = 1 := by
  unfold Context.make_current at hok ⊢
  rw [h1, h2] at hok ⊢
  cases hc : check_make_current (some nat.mcRet) nat.mcErr with
  | fail e => rw [hc] at hok; simp at hok
  | panic => rw [hc] at hok; simp at hok
  | ok u =>
    rw [hc] at hok
    cases hd : surf.desired_swap_interval with
    | AdaptiveWait m => rw [hd] at hok; simp at hok
    | DontWait =>
      rw [hd] at hok
      cases hs : nat.siOk with
      | false => rw [hs] at hok; simp at hok
      | true =>
        rw [hs] at hok
        simp [swap_interval_calls, is_swap_interval_call]
    | Wait m =>
      rw [hd] at hok
      cases hs : nat.siOk with
      | false => rw [hs] at hok; simp at hok
      | true =>
        rw [hs] at hok
        simp [swap_interval_calls, is_swap_interval_call]

theorem run_flag_true (ctx disp : Nat) (os : List MakeCurrentNative) :
    ∀ surf : SurfaceState, surf.has_been_current = true →
    swap_interval_calls (run_make_currents ctx disp surf os).2.2 = 0 := by
  induction os with
  | nil => intro surf h; simp [run_make_currents, swap_interval_calls]
  | cons nat rest ih =>
    intro surf h
    have hns := make_current_no_swap ctx disp surf nat (Or.inl h)
    simp only [run_make_currents]
    rw [swap_calls_append, hns.1, hns.2, ih surf h]

theorem run_not_window (ctx disp : Nat) (os : List MakeCurrentNative) :
    ∀ surf : SurfaceState, surf.kind ≠ .Window →
    swap_interval_calls (run_make_currents ctx disp surf os).2.2 = 0 := by
  induction os with
  | nil => intro surf h; simp [run_make_currents, swap_interval_calls]
  | cons nat rest ih =>
    intro surf h
    have hns := make_current_no_swap ctx disp surf nat (Or.inr h)
    simp only [run_make_currents]
    rw [swap_calls_append, hns.1, hns.2, ih surf h]

/-- C3: over any sequence of successful `make_current` calls on one
surface, the native `eglSwapInterval` call is issued exactly once — during
the first bind — when the surface is a window surface, and never when it
is a pbuffer surface. -/
theorem C3_swap_interval_exactly_once (ctx disp : Nat) (surf : SurfaceState)
    (os : List MakeCurrentNative)
    (hfresh : surf.has_been_current = false)
    (hok : ∀ r ∈ (run_make_currents ctx disp surf os).1, r = .ok ()) :
    (surf.kind = .Window → os ≠ [] →
      swap_interval_calls (run_make_currents ctx disp surf os).2.2 = 1) ∧
    (surf.kind = .PBuffer →
      swap_interval_calls (run_make_currents ctx disp surf os).2.2 = 0) := by
  constructor
  · intro hw hne
    match os, hok with
    | [], _ => exact absurd rfl hne
    | nat :: rest, hok =>
      have hmem : (Context.make_current ctx disp surf nat).1 ∈
          (run_make_currents ctx disp surf (nat :: rest)).1 := by
        simp [run_make_currents]
      have hok1 := hok _ hmem
      have hw1 := make_current_window_first ctx disp surf nat hfresh hw hok1
      simp only [run_make_currents]
      rw [swap_calls_append, hw1.1, hw1.2,
        run_flag_true ctx disp rest { surf with has_been_current := true } rfl]
  · intro hp
    exact run_not_window ctx disp os surf (by simp [hp])

/-- C3 witness: two successful binds on a fresh window surface issue the
swap-interval call once; on a fresh pbuffer surface, never. -/
theorem C3_swap_interval_exactly_once_witness :
    swap_interval_calls
      (run_make_currents 9 1 surf_w [mc_ok, mc_ok]).2.2 = 1 ∧
    swap_interval_calls
      (run_make_currents 9 1 surf_pb [mc_ok, mc_ok]).2.2 = 0 :=
  ⟨(C3_swap_interval_exactly_once 9 1 surf_w [mc_ok, mc_ok] rfl
      (by decide)).1 rfl (by decide),
   (C3_swap_interval_exactly_once 9 1 surf_pb [mc_ok, mc_ok] rfl
      (by decide)).2 rfl⟩

/-- C10: when the native bind succeeds but `eglSwapInterval` fails, the
call returns an OS error, the surface state (and so the
`has_been_current` flag) is left unchanged, the swap-interval call was
issued; the flag can only become set when `eglSwapInterval` succeeds, and
a following successful call on the unchanged surface issues the
swap-interval call again. -/
theorem C10_swap_interval_flag_on_failure
    (ctx disp : Nat) (surf : SurfaceState) (mcErr : Nat)
    (nat2 : MakeCurrentNative)
    (h1 : surf.has_been_current = false) (h2 : surf.kind = .Window)
    (h3 : ∀ k, surf.desired_swap_interval ≠ .AdaptiveWait k) :
    (Context.make_current ctx disp surf ⟨1, mcErr, false⟩).1 =
      .fail (.OsMisc "eglSwapInterval failed") ∧
    (Context.make_current ctx disp surf ⟨1, mcErr, false⟩).2.1 = surf ∧
    swap_interval_calls
      (Context.make_current ctx disp surf ⟨1, mcErr, false⟩).2.2 = 1 ∧
    (∀ nat : MakeCurrentNative,
      (Context.make_current ctx disp surf nat).2.1.has_been_current = true →
      nat.siOk = true) ∧
    ((Context.make_current ctx disp surf nat2).1 = .ok () →
      swap_interval_calls
        (Context.make_current ctx disp surf nat2).2.2 = 1) := by
  refine ⟨?_, ?_, ?_, ?_, ?_⟩
  · cases hd : surf.desired_swap_interval with
    | AdaptiveWait m => exact absurd hd (h3 m)
    | DontWait =>
      simp [Context.make_current, check_make_current, h1, h2, hd]
    | Wait m =>
      simp [Context.make_current, check_make_current, h1, h2, hd]
  · cases hd : surf.desired_swap_interval with
    | AdaptiveWait m => exact absurd hd (h3 m)
    | DontWait =>
      simp [Context.make_current, check_make_current, h1, h2, hd]
    | Wait m =>
      simp [Context.make_current, check_make_current, h1, h2, hd]
  · cases hd : surf.desired_swap_interval with
    | AdaptiveWait m => exact absurd hd (h3 m)
    | DontWait =>
      simp [Context.make_current, check_make_current, h1, h2, hd,
        swap_interval_calls, is_swap_interval_call]
    | Wait m =>
      simp [Context.make_current, check_make_current, h1, h2, hd,
        swap_interval_calls, is_swap_interval_call]
  · intro nat hflag
    cases hs : nat.siOk with
    | true => rfl
    | false =>
      exfalso
      unfold Context.make_current at hflag
      rw [h2] at hflag
      cases hc : check_make_current (some nat.mcRet) nat.mcErr with
      | fail e => rw [hc] at hflag; simp [h1] at hflag
      | panic => rw [hc] at hflag; simp [h1] at hflag
      | ok u =>
        rw [hc] at hflag
        cases hd : surf.desired_swap_interval with
        | AdaptiveWait m => exact absurd hd (h3 m)
        | DontWait => rw [hd, hs] at hflag; simp [h1] at hflag
        | Wait m => rw [hd, hs] at hflag; simp [h1] at hflag
  · intro hok5
    exact (make_current_window_first ctx disp surf nat2 h1 h2 hok5).2

/-- C10 witness: the failure, retry and flag behavior evaluated on the
fresh fixture window surface. -/
theorem C10_swap_interval_flag_on_failure_witness :
    (Context.make_current 9 1 surf_w ⟨1, 0, false⟩).1 =
      .fail (.OsMisc "eglSwapInterval failed") ∧
    (Context.make_current 9 1 surf_w ⟨1, 0, false⟩).2.1 = surf_w ∧
    swap_interval_calls
      (Context.make_current 9 1 surf_w ⟨1, 0, false⟩).2.2 = 1 ∧
    (∀ nat : MakeCurrentNative,
      (Context.make_current 9 1 surf_w nat).2.1.has_been_current = true →
      nat.siOk = true) ∧
    ((Context.make_current 9 1 surf_w mc_ok).1 = .ok () →
      swap_interval_calls
        (Context.make_current 9 1 surf_w mc_ok).2.2 = 1) :=
  C10_swap_interval_flag_on_failure 9 1 surf_w 0 mc_ok rfl rfl
    (by intro k h; cases h)

/-- C4: `make_not_current` on a context that is not the thread's current
context reports success, issues no native call and leaves the thread's
binding unchanged; on the thread's current context it issues the native
unbind with null context and surfaces. -/
theorem C4_make_not_current_idempotent (ctx disp : Nat) (ts : ThreadState)
    (mcRet mcErr : Nat) :
    (ts.current_ctx ≠ ctx →
      Context.make_not_current ctx disp ts mcRet mcErr = (.ok (), ts, [])) ∧
    (ts.current_ctx = ctx →
      (Context.make_not_current ctx disp ts mcRet mcErr).2.2 =
        [NativeCall.makeCurrent 0 0 0]) := by
  constructor
  · intro h
    simp [Context.make_not_current, h, check_make_current]
  · intro h
    simp [Context.make_not_current, h]

/-- C4 witness: a not-current context (3 current, unbinding 4) is a
successful no-op; the current context's unbind issues the null native
call. -/
theorem C4_make_not_current_idempotent_witness :
    Context.make_not_current 4 1 ⟨3, 0, 0⟩ 1 0 = (.ok (), ⟨3, 0, 0⟩, []) ∧
    (Context.make_not_current 3 1 ⟨3, 0, 0⟩ 1 0).2.2 =
      [NativeCall.makeCurrent 0 0 0] :=
  ⟨(C4_make_not_current_idempotent 4 1 ⟨3, 0, 0⟩ 1 0).1 (by decide),
   (C4_make_not_current_idempotent 3 1 ⟨3, 0, 0⟩ 1 0).2 rfl⟩

/-- C6: swapping a surface whose handle was already invalidated is a
ContextLost error with no native call; otherwise a native failure with
the `CONTEXT_LOST` code maps to ContextLost and any other failing code to
an OS error carrying it. -/
theorem C6_swap_buffers_error_mapping (disp surface sbRet sbErr : Nat) :
    (surface = 0 →
      Surface.swap_buffers disp surface sbRet sbErr =
        (.fail .ContextLost, [])) ∧
    (surface ≠ 0 → sbRet = 0 → sbErr = egl_CONTEXT_LOST →
      Surface.swap_buffers disp surface sbRet sbErr =
        (.fail .ContextLost, [NativeCall.swapBuffersCall surface])) ∧
    (surface ≠ 0 → sbRet = 0 → sbErr ≠ egl_CONTEXT_LOST →
      Surface.swap_buffers disp surface sbRet sbErr =
        (.fail (.OsMisc ("eglSwapBuffers failed with " ++ toString sbErr)),
         [NativeCall.swapBuffersCall surface])) ∧
    (surface ≠ 0 → sbRet ≠ 0 →
      Surface.swap_buffers disp surface sbRet sbErr =
        (.ok (), [NativeCall.swapBuffersCall surface])) := by
  refine ⟨?_, ?_, ?_, ?_⟩
  · intro h; simp [Surface.swap_buffers, h]
  · intro h1 h2 h3; simp [Surface.swap_buffers, h1, h2, h3]
  · intro h1 h2 h3; simp [Surface.swap_buffers, h1, h2, h3]
  · intro h1 h2; simp [Surface.swap_buffers, h1, h2]

/-- C6 witness: the four swap outcomes at concrete handles and codes. -/
theorem C6_swap_buffers_error_mapping_witness :
    Surface.swap_buffers 1 0 1 0 = (.fail .ContextLost, []) ∧
    Surface.swap_buffers 1 5 0 egl_CONTEXT_LOST =
      (.fail .ContextLost, [NativeCall.swapBuffersCall 5]) ∧
    Surface.swap_buffers 1 5 0 12290 =
      (.fail (.OsMisc ("eglSwapBuffers failed with " ++ toString 12290)),
       [NativeCall.swapBuffersCall 5]) ∧
    Surface.swap_buffers 1 5 1 0 = (.ok (), [NativeCall.swapBuffersCall 5]) :=
  ⟨(C6_swap_buffers_error_mapping 1 0 1 0).1 rfl,
   (C6_swap_buffers_error_mapping 1 5 0 egl_CONTEXT_LOST).2.1
     (by decide) rfl rfl,
   (C6_swap_buffers_error_mapping 1 5 0 12290).2.2.1
     (by decide) rfl (by decide),
   (C6_swap_buffers_error_mapping 1 5 1 0).2.2.2 (by decide) (by decide)⟩

/-- C9 counterexample: at protocol version (1, 1) — strictly below 1.4 —
binding the desktop GL API succeeds with no native call and no error,
refuting the claim that every version strictly below 1.4 fails. -/
theorem C9_counterexample :
    Display.bind_api .OpenGl (1, 1) true = (.ok (), []) ∧
    vlt (1, 1) (1, 4) = true := by
  decide

/-- C9 (amended): binding desktop GL fails with the version error only for
protocol versions in [1.2, 1.4); below 1.2 `bind_api` is a success no-op
for either API; binding ES at protocol ≥ 1.2 issues the native bind and
maps a native failure to the version error. -/
theorem C9_bind_api_version_gate (v : Int × Int) (bindOk : Bool) :
    (vge v (1, 2) = true → vge v (1, 4) = false →
      Display.bind_api .OpenGl v bindOk =
        (.fail .OpenGlVersionNotSupported, [])) ∧
    (vge v (1, 2) = false →
      Display.bind_api .OpenGl v bindOk = (.ok (), []) ∧
      Display.bind_api .OpenGlEs v bindOk = (.ok (), [])) ∧
    (vge v (1, 2) = true →
      Display.bind_api .OpenGlEs v bindOk =
        ((if bindOk then .ok () else .fail .OpenGlVersionNotSupported),
         [egl_OPENGL_ES_API])) := by
  refine ⟨?_, ?_, ?_⟩
  · intro h1 h2
    simp [Display.bind_api, h1, h2, egl_TRUE, egl_FALSE]
  · intro h1
    constructor <;> simp [Display.bind_api, h1]
  · intro h1
    cases bindOk <;>
      simp [Display.bind_api, h1, egl_TRUE, egl_FALSE]

/-- C9 witness: the three version-gate behaviors at concrete versions. -/
theorem C9_bind_api_version_gate_witness :
    Display.bind_api .OpenGl (1, 3) true =
      (.fail .OpenGlVersionNotSupported, []) ∧
    Display.bind_api .OpenGl (1, 1) false = (.ok (), []) ∧
    Display.bind_api .OpenGlEs (1, 2) false =
      (.fail .OpenGlVersionNotSupported, [egl_OPENGL_ES_API]) :=
  ⟨(C9_bind_api_version_gate (1, 3) true).1 rfl rfl,
   ((C9_bind_api_version_gate (1, 1) false).2.1 rfl).1,
   by
     have h := (C9_bind_api_version_gate (1, 2) false).2.2 rfl
     simpa using h⟩

/-- C5 counterexample: on a display reporting only
`EGL_KHR_create_context` at protocol 1.4, the desktop GL 3.3 request with
strict lose-context-on-reset robustness does NOT succeed — it fails with
RobustnessNotSupported (the robustness capability checked is
`EGL_EXT_create_context_robustness` or protocol ≥ 1.5); and at protocol
1.2 with no extensions the same request fails with
OpenGlVersionNotSupported (from the API bind), not
RobustnessNotSupported. -/
theorem C5_counterexample :
    Context.new ctxb_strict .OpenGl ⟨3, 3⟩ .Flush display14_khr true none =
      .fail .RobustnessNotSupported ∧
    Context.new ctxb_strict .OpenGl ⟨3, 3⟩ .Flush display12 true none =
      .fail .OpenGlVersionNotSupported := by
  decide

/-- C5 (amended): with `EGL_KHR_create_context` AND
`EGL_EXT_create_context_robustness` at protocol 1.4, the strict GL 3.3
request succeeds and the attribute list contains the major/minor-version
and reset-notification-strategy attributes; at protocol 1.2 with no
extensions the request fails with OpenGlVersionNotSupported; and on the
extended attribute path, when the robustness capability is absent the two
strict variants are a hard RobustnessNotSupported error while the two try
variants behave exactly like NotRobust. -/
theorem C5_robustness_negotiation :
    (Context.new ctxb_strict .OpenGl ⟨3, 3⟩ .Flush display14_khr_rob true
        none = .ok c5_attrs ∧
     contains_seq [egl_CONTEXT_MAJOR_VERSION, 3] c5_attrs = true ∧
     contains_seq [egl_CONTEXT_MINOR_VERSION, 3] c5_attrs = true ∧
     contains_seq [egl_CONTEXT_OPENGL_RESET_NOTIFICATION_STRATEGY,
       egl_LOSE_CONTEXT_ON_RESET] c5_attrs = true) ∧
    (Context.new ctxb_strict .OpenGl ⟨3, 3⟩ .Flush display12 true none =
      .fail .OpenGlVersionNotSupported) ∧
    (∀ (display : Display) (cb : ContextBuilder) (api : Api)
       (version : Version) (rb : ReleaseBehavior) (bindOk : Bool)
       (createErr : Option Nat),
      (Display.bind_api api display.egl_version bindOk).1 = .ok () →
      (vge display.egl_version (1, 5) ||
        display.extensions.any
          (fun s => s == "EGL_KHR_create_context")) = true →
      (vge display.egl_version (1, 5) ||
        display.extensions.any
          (fun s => s == "EGL_EXT_create_context_robustness")) = false →
      ((cb.robustness = .RobustNoResetNotification ∨
          cb.robustness = .RobustLoseContextOnReset) →
        Context.new cb api version rb display bindOk createErr =
          .fail .RobustnessNotSupported) ∧
      ((cb.robustness = .TryRobustNoResetNotification ∨
          cb.robustness = .TryRobustLoseContextOnReset) →
        Context.new cb api version rb display bindOk createErr =
          Context.new { cb with robustness := .NotRobust } api version rb
            display bindOk createErr)) := by
  refine ⟨by decide, by decide, ?_⟩
  intro display cb api version rb bindOk createErr hb hext hrob
  constructor
  · intro hs
    rcases hs with hs | hs <;>
      simp [Context.new, hb, hext, hrob, hs, robustness_attributes]
  · intro hs
    rcases hs with hs | hs <;>
      simp [Context.new, hb, hext, hrob, hs, robustness_attributes]

/-- C5 witness: on the 1.4 display with only the create-context extension,
the strict variant is a hard error and the try variant degrades exactly
to the no-robustness behavior. -/
theorem C5_robustness_negotiation_witness :
    Context.new ctxb_strict .OpenGl ⟨3, 3⟩ .Flush display14_khr true none =
      .fail .RobustnessNotSupported ∧
    Context.new ctxb_try .OpenGl ⟨3, 3⟩ .Flush display14_khr true none =
      Context.new ctxb_plain .OpenGl ⟨3, 3⟩ .Flush display14_khr true none :=
  ⟨(C5_robustness_negotiation.2.2 display14_khr ctxb_strict .OpenGl ⟨3, 3⟩
      .Flush true none rfl (by decide) (by decide)).1 (Or.inr rfl),
   (C5_robustness_negotiation.2.2 display14_khr ctxb_try .OpenGl ⟨3, 3⟩
      .Flush true none rfl (by decide) (by decide)).2 (Or.inr rfl)⟩

end Egl
